import Mathlib

/-
Verification of the TrendsAGI Python client (`src/trendsagi/client.py`)
against its natural-language specification.

The development is a shallow embedding: the dispatch routine
`TrendsAGIClient._request`, the constructor `TrendsAGIClient.__init__`,
and the query/body assembly of the public operations are translated into
executable Lean functions.  The HTTP transport and the JSON-parsing
library are out of scope for the spec (treated as capabilities), so a
transport interaction is modelled by its outcome (`TransportOutcome`)
and the parse of a response body by its result (`Except String Json`).
-/

set_option autoImplicit false

namespace TrendsAGI

/-- A JSON value, as produced by the out-of-scope JSON-parse capability
(Python `response.json()` yields `None`/`bool`/`int`/`float`/`str`/`list`/`dict`;
numeric payloads are modelled by `Int`, which suffices for every claim). -/
inductive Json where
  | null
  | bool (b : Bool)
  | num (n : Int)
  | str (s : String)
  | arr (elems : List Json)
  | obj (fields : List (String × Json))


/-- True exactly when the JSON value is an object (a Python `dict`,
the only Python value with a `.get` method among JSON decode results). -/
def Json.isObj : Json → Bool
  | .obj _ => true
  | _ => false

/-- Modelled from the spec: the error taxonomy lives in the repository's
`exceptions` module, which is not part of the provided source; the
variants and their payloads follow spec section 4.1, where
`AuthenticationError` is listed without a `(status, detail)` payload
(it carries only its message, matching the single-argument call site
`exceptions.AuthenticationError(error_detail)` in `client.py`), the four
status-classified variants carry `(status, detail)`, and the
network/transport variant carries only a message (`exceptions.TrendsAGIError`
at the `except` handler in `client.py`). -/
inductive TrendsAGIError where
  | authenticationError (detail : Json)
  | notFoundError (status : Nat) (detail : Json)
  | conflictError (status : Nat) (detail : Json)
  | rateLimitError (status : Nat) (detail : Json)
  | apiError (status : Nat) (detail : Json)
  | transportError (message : String)


/-- The numeric status code an error value carries, when it carries one. -/
def TrendsAGIError.statusCode? : TrendsAGIError → Option Nat
  | .notFoundError s _ => some s
  | .conflictError s _ => some s
  | .rateLimitError s _ => some s
  | .apiError s _ => some s
  | .authenticationError _ => none
  | .transportError _ => none

/-- The detail payload an error value carries, when it carries one. -/
def TrendsAGIError.detail? : TrendsAGIError → Option Json
  | .authenticationError d => some d
  | .notFoundError _ d => some d
  | .conflictError _ d => some d
  | .rateLimitError _ d => some d
  | .apiError _ d => some d
  | .transportError _ => none

/-- An HTTP response as seen by the dispatch routine: its status code,
the result of the (out-of-scope) JSON parse of its body — `Except.error`
carries the decode-error message, the rendering of Python's
`requests.exceptions.JSONDecodeError` — and its raw text. -/
structure Response where
  status : Nat
  body : Except String Json
  text : String


/-- The outcome of one transport interaction: either an HTTP response was
obtained, or the transport layer failed first (DNS failure, timeout,
connection reset, TLS failure) with the given message — the rendering of
the Python `requests.exceptions.RequestException` raised by
`Session.request`. -/
inductive TransportOutcome where
  | response (r : Response)
  | failure (message : String)


/-- The outcome of one invocation of the dispatch routine:
`ok v` models a normal return (`none` being Python `None`),
`error e` models a raised taxonomy error, and `pyError m` models a raised
exception outside the taxonomy (in `_request`, the `AttributeError` from
`response.json().get(...)` when the decoded body is not a `dict`, which
no handler in `_request` catches). -/
inductive DispatchOutcome where
  | ok (v : Option Json)
  | error (e : TrendsAGIError)
  | pyError (message : String)


/-- Message wrapper of the `except requests.exceptions.RequestException`
handler in `_request`: Python
`f"Network error communicating with API: {e}"`. -/
def wrapNetworkError (m : String) : String :=
  "Network error communicating with API: " ++ m

/-- The `error_detail` extraction of `_request` for a non-2xx response
(`response.json().get('detail', response.text)` guarded by
`except requests.exceptions.JSONDecodeError`): if the body fails to
parse, the raw text; if it parses to an object, the value at key
`detail`, defaulting to the raw text; if it parses to any other JSON
value, Python raises `AttributeError` (no `.get` method), modelled by
`none`. -/
def errorDetail? (r : Response) : Option Json :=
  match r.body with
  | .ok (.obj fields) => some ((fields.lookup "detail").getD (.str r.text))
  | .ok _ => none
  | .error _ => some (.str r.text)

/-- The status classification at the tail of `_request`: 401, 404, 409
and 429 are matched in order, anything else falls to `APIError`. -/
def classifyStatus (status : Nat) (d : Json) : TrendsAGIError :=
  if status = 401 then .authenticationError d
  else if status = 404 then .notFoundError status d
  else if status = 409 then .conflictError status d
  else if status = 429 then .rateLimitError status d
  else .apiError status d

/-- The dispatch routine `TrendsAGIClient._request`, as a function of the
transport outcome.  Its whole body sits in a `try` block whose handler
catches `requests.exceptions.RequestException`; since requests 2.27
(required by the source's reference to `requests.exceptions.JSONDecodeError`)
that class is an ancestor of `JSONDecodeError`, so the handler also
catches the decode error raised by `response.json()` on a 2xx body and
wraps it in `exceptions.TrendsAGIError` (the network/transport kind).
The taxonomy errors raised in the body are not `RequestException`s and
propagate; the `AttributeError` from `.get` on a non-dict decode result
is caught by neither handler and escapes the taxonomy. -/
def dispatch : TransportOutcome → DispatchOutcome
  | .failure msg => .error (.transportError (wrapNetworkError msg))
  | .response r =>
    if 200 ≤ r.status ∧ r.status < 300 then
      if r.status = 204 then .ok none
      else
        match r.body with
        | .ok j => .ok (some j)
        | .error m => .error (.transportError (wrapNetworkError m))
    else
      match errorDetail? r with
      | some d => .error (classifyStatus r.status d)
      | none => .pyError "AttributeError: object has no attribute get"

/-- The immutable client context built by `TrendsAGIClient.__init__`:
the trailing-slash-normalized base URL and the fixed session headers.
The constructor performs no transport interaction (its type takes no
`TransportOutcome`). -/
structure ClientContext where
  base_url : String
  headers : List (String × String)


/-- Python `str.rstrip('/')`: drop every trailing slash character. -/
def rstripSlash (s : String) : String :=
  String.mk ((s.data.reverse.dropWhile (· = '/')).reverse)

/-- The constructor `TrendsAGIClient.__init__`: Python `if not api_key`
is `True` exactly when the key string is empty (the argument is typed
`str`), in which case `exceptions.AuthenticationError("API key is
required.")` is raised; otherwise the context is built with the fixed
headers. -/
def clientInit (api_key : String)
    (base_url : String := "https://api.trendsagi.com") :
    Except TrendsAGIError ClientContext :=
  if api_key = "" then
    .error (.authenticationError (.str "API key is required."))
  else
    .ok { base_url := rstripSlash base_url
          headers := [("X-API-Key", api_key),
                      ("Content-Type", "application/json"),
                      ("Accept", "application/json")] }

/-- A JSON value that is Python `None`: the comprehension
`{k: v for k, v in ... if v is not None}` tests exactly this. -/
def Json.isNull : Json → Bool
  | .null => true
  | _ => false

/-- The `{k: v for k, v in ... if v is not None}` comprehension shared by
the public operations: keep every entry whose value is not Python `None`
(`Json.null` embeds Python `None`). -/
def filterNotNone (entries : List (String × Json)) :
    List (String × Json) :=
  entries.filter (fun p => !p.2.isNull)

/-- True when some entry of the mapping carries a `null` value (would
serialize as an explicit `null` on the wire). -/
def hasNullValue (params : List (String × Json)) : Bool :=
  params.any (fun p => p.2.isNull)

/-- A Python `Optional[str]` argument as the value it contributes to a
parameter dict: `None` or the string. -/
def pyOptStr : Option String → Json
  | none => .null
  | some s => .str s

/-- A Python `Optional[int]` (or `Optional[float]`) argument as the
value it contributes to a parameter dict. -/
def pyOptNum : Option Int → Json
  | none => .null
  | some n => .num n

/-- Query assembly of `get_trends`: the dict comprehension over
`locals()` keeps every argument except `self` whose value is not `None`
(`search` and `category` are the optional ones). -/
def getTrendsParams (search : Option String) (sort_by : String)
    (order : String) (limit : Int) (offset : Int) (period : String)
    (category : Option String) : List (String × Json) :=
  filterNotNone
    [("search", pyOptStr search),
     ("sort_by", .str sort_by),
     ("order", .str order),
     ("limit", .num limit),
     ("offset", .num offset),
     ("period", .str period),
     ("category", pyOptStr category)]

/-- Query assembly of `get_trend_analytics`: `period` with the two
optional dates, filtered through the not-`None` comprehension. -/
def getTrendAnalyticsParams (period : String)
    (start_date : Option String) (end_date : Option String) :
    List (String × Json) :=
  filterNotNone
    [("period", .str period),
     ("start_date", pyOptStr start_date),
     ("end_date", pyOptStr end_date)]

/-- Query assembly of `search_insights` (camel-case wire keys), filtered
through the not-`None` comprehension. -/
def searchInsightsParams (key_theme_contains audience_keyword
    angle_contains sentiment_category overall_topic_category_llm
    trend_name_contains : Option String) (limit offset : Int)
    (sort_by order : String) : List (String × Json) :=
  filterNotNone
    [("keyThemeContains", pyOptStr key_theme_contains),
     ("audienceKeyword", pyOptStr audience_keyword),
     ("angleContains", pyOptStr angle_contains),
     ("sentimentCategory", pyOptStr sentiment_category),
     ("overallTopicCategoryLlm", pyOptStr overall_topic_category_llm),
     ("trendNameContains", pyOptStr trend_name_contains),
     ("limit", .num limit),
     ("offset", .num offset),
     ("sort_by", .str sort_by),
     ("order", .str order)]

/-- Query assembly of `get_ai_insights`: the literal dict
`{"force_refresh": force_refresh}` — no not-`None` filter is applied, so
the key is present for both boolean values. -/
def getAiInsightsParams (force_refresh : Bool) : List (String × Json) :=
  [("force_refresh", .bool force_refresh)]

/-- Query assembly of `get_recommendations`, filtered through the
not-`None` comprehension. -/
def getRecommendationsParams (limit offset : Int)
    (recommendation_type source_trend_query priority : Option String)
    (status : String) : List (String × Json) :=
  filterNotNone
    [("limit", .num limit),
     ("offset", .num offset),
     ("type", pyOptStr recommendation_type),
     ("sourceTrendQ", pyOptStr source_trend_query),
     ("priority", pyOptStr priority),
     ("status", .str status)]

/-- Body assembly of `perform_recommendation_action`, filtered through
the not-`None` comprehension. -/
def performRecommendationActionPayload (action feedback : Option String) :
    List (String × Json) :=
  filterNotNone
    [("action", pyOptStr action),
     ("feedback", pyOptStr feedback)]

/-- Python truthiness of an `Optional[str]`: `None` and the empty string
are falsy, every other string is truthy (the tests `if action and
feedback` and `if not action and not feedback` use exactly this). -/
def truthyStr : Option String → Bool
  | none => false
  | some s => !(s == "")

/-- Outcome of a public operation call: a local validation error raised
before any transport interaction, or the outcome of the dispatch it
delegates to. -/
inductive CallOutcome where
  | localError (message : String)
  | dispatched (o : DispatchOutcome)


/-- The operation `perform_recommendation_action`: the two mutual-
exclusion checks run before `_request`; only when they pass is the
transport consulted. -/
def perform_recommendation_action (action feedback : Option String)
    (t : TransportOutcome) : CallOutcome :=
  if truthyStr action && truthyStr feedback then
    .localError "Only one of 'action' or 'feedback' can be provided at a time."
  else if !truthyStr action && !truthyStr feedback then
    .localError "Either 'action' or 'feedback' must be provided."
  else
    .dispatched (dispatch t)

/-- Body assembly of `create_tracked_x_user`, filtered through the
not-`None` comprehension (`handle` is required). -/
def createTrackedXUserPayload (handle : String)
    (name description notes : Option String) : List (String × Json) :=
  filterNotNone
    [("handle", .str handle),
     ("name", pyOptStr name),
     ("description", pyOptStr description),
     ("notes", pyOptStr notes)]

/-- Query assembly of `get_tracked_x_users`, filtered through the
not-`None` comprehension. -/
def getTrackedXUsersParams (q : Option String)
    (min_followers : Option Int) (sort_by : String) :
    List (String × Json) :=
  filterNotNone
    [("q", pyOptStr q),
     ("min_followers", pyOptNum min_followers),
     ("sort_by", .str sort_by)]

/-- Query assembly of `get_crisis_events`, filtered through the
not-`None` comprehension. -/
def getCrisisEventsParams (limit offset : Int) (status : String)
    (keyword severity : Option String) (time_range : String)
    (start_date end_date : Option String) : List (String × Json) :=
  filterNotNone
    [("limit", .num limit),
     ("offset", .num offset),
     ("status", .str status),
     ("keyword", pyOptStr keyword),
     ("severity", pyOptStr severity),
     ("timeRange", .str time_range),
     ("startDate", pyOptStr start_date),
     ("endDate", pyOptStr end_date)]

/-- Body assembly of `create_topic_interest`, filtered through the
not-`None` comprehension. -/
def createTopicInterestPayload (keyword alert_condition_type : String)
    (volume_threshold_value : Option Int)
    (percentage_growth_value : Option Int) : List (String × Json) :=
  filterNotNone
    [("keyword", .str keyword),
     ("alert_condition_type", .str alert_condition_type),
     ("volume_threshold_value", pyOptNum volume_threshold_value),
     ("percentage_growth_value", pyOptNum percentage_growth_value)]

/-- Body assembly of `save_export_settings`, filtered through the
not-`None` comprehension; `is_active : bool` passes the filter for both
values of the boolean (`False is not None`), and the required `config`
dict passes whenever it is an actual value. -/
def saveExportSettingsPayload (config_id : Option Int)
    (destination : String) (config : Json) (schedule : String)
    (schedule_time : Option String) (is_active : Bool) :
    List (String × Json) :=
  filterNotNone
    [("id", pyOptNum config_id),
     ("destination", .str destination),
     ("config", config),
     ("schedule", .str schedule),
     ("schedule_time", pyOptStr schedule_time),
     ("is_active", .bool is_active)]

/-- Body assembly of `mark_notifications_read`: the literal dict
`{"ids": ids if ids is not None else []}` — the `ids` key is always
present; an unset argument is replaced by the empty list, not omitted
and not sent as `null`. -/
def markNotificationsReadPayload (ids : Option (List Int)) :
    List (String × Json) :=
  [("ids", .arr ((ids.getD []).map .num))]

/-! General lemmas about the embedded operations, shared by the claim
theorems below. -/

/-- Every error built by the status classification carries the extracted
detail. -/
theorem classifyStatus_detail (s : Nat) (d : Json) :
    (classifyStatus s d).detail? = some d := by
  unfold classifyStatus
  split_ifs <;> rfl

/-- The status classification never builds the network/transport error:
that variant only arises from the `RequestException` handler. -/
theorem classifyStatus_ne_transportError (s : Nat) (d : Json)
    (m : String) : classifyStatus s d ≠ .transportError m := by
  unfold classifyStatus
  split_ifs <;> intro h <;> cases h

/-- The not-`None` comprehension leaves no `null` value in the mapping. -/
theorem hasNullValue_filterNotNone (entries : List (String × Json)) :
    hasNullValue (filterNotNone entries) = false := by
  induction entries with
  | nil => rfl
  | cons p rest ih =>
    unfold filterNotNone at ih ⊢
    unfold hasNullValue at ih ⊢
    cases h : p.2.isNull <;> simp [List.filter_cons, h, ih]

/-! Claim theorems. -/

/-- Claim C5: for every response with status 204, dispatch returns the
empty/absent result whatever the body holds (no parse attempt: the
result does not depend on the body); for every other status in
[200, 300) whose body parses to a JSON value, dispatch returns exactly
that value; and a normal return only ever happens for a response whose
status lies in [200, 300) — the only success path. -/
theorem c5_success_paths :
    (∀ r : Response, r.status = 204 → dispatch (.response r) = .ok none) ∧
    (∀ (r : Response) (j : Json), 200 ≤ r.status → r.status < 300 →
      r.status ≠ 204 → r.body = .ok j →
      dispatch (.response r) = .ok (some j)) ∧
    (∀ (t : TransportOutcome) (v : Option Json), dispatch t = .ok v →
      ∃ r : Response, t = .response r ∧ 200 ≤ r.status ∧ r.status < 300) := by
  refine ⟨?_, ?_, ?_⟩
  · intro r h
    simp [dispatch, h]
  · intro r j h1 h2 h3 hb
    simp [dispatch, h1, h2, h3, hb]
  · intro t v h
    cases t with
    | failure m => simp [dispatch] at h
    | response r =>
      refine ⟨r, rfl, ?_⟩
      by_cases h2 : 200 ≤ r.status ∧ r.status < 300
      · exact h2
      · exfalso
        simp only [dispatch, if_neg h2] at h
        cases he : errorDetail? r <;> simp [he] at h

/-- Witness for C5: a 204 response with an unparseable body still
returns `None`, and a 200 response with body `{}` returns it parsed. -/
theorem c5_success_paths_witness :
    dispatch (.response ⟨204, .error "Expecting value", "x"⟩) = .ok none ∧
    dispatch (.response ⟨200, .ok (.obj []), "{}"⟩) = .ok (some (.obj [])) :=
  ⟨c5_success_paths.1 ⟨204, .error "Expecting value", "x"⟩ rfl,
   c5_success_paths.2.1 ⟨200, .ok (.obj []), "{}"⟩ (.obj [])
     (by decide) (by decide) (by decide) rfl⟩

/-- Claim C6: for every non-2xx response whose body is not valid JSON, the
error raised by dispatch carries the raw response text, verbatim, as its
detail. -/
theorem c6_unparseable_body_detail (r : Response) (m : String)
    (hs : ¬ (200 ≤ r.status ∧ r.status < 300)) (hb : r.body = .error m) :
    ∃ e, dispatch (.response r) = .error e ∧
      e.detail? = some (.str r.text) := by
  refine ⟨classifyStatus r.status (.str r.text), ?_, classifyStatus_detail _ _⟩
  simp [dispatch, if_neg hs, errorDetail?, hb]

/-- Witness for C6: a 500 response with non-JSON text carries that text
as the detail. -/
theorem c6_unparseable_body_detail_witness :
    ∃ e, dispatch (.response ⟨500, .error "Expecting value",
        "Internal Server Error"⟩) = .error e ∧
      e.detail? = some (.str "Internal Server Error") :=
  c6_unparseable_body_detail ⟨500, .error "Expecting value",
    "Internal Server Error"⟩ "Expecting value" (by decide) rfl

/-- Claim C10: for every non-2xx response whose body parses to a JSON object
without a `detail` key, the error raised by dispatch falls back to the
raw response text as the detail — the same fallback as for unparseable
bodies. -/
theorem c10_missing_detail_key_fallback (r : Response)
    (fields : List (String × Json))
    (hs : ¬ (200 ≤ r.status ∧ r.status < 300))
    (hb : r.body = .ok (.obj fields))
    (hk : fields.lookup "detail" = none) :
    ∃ e, dispatch (.response r) = .error e ∧
      e.detail? = some (.str r.text) := by
  refine ⟨classifyStatus r.status (.str r.text), ?_, classifyStatus_detail _ _⟩
  simp [dispatch, if_neg hs, errorDetail?, hb, hk]

/-- Witness for C10: a 404 response with body object lacking a `detail`
key carries the raw text as the detail. -/
theorem c10_missing_detail_key_fallback_witness :
    ∃ e, dispatch (.response ⟨404, .ok (.obj [("error", .str "nope")]),
        "raw body"⟩) = .error e ∧ e.detail? = some (.str "raw body") :=
  c10_missing_detail_key_fallback
    ⟨404, .ok (.obj [("error", .str "nope")]), "raw body"⟩
    [("error", .str "nope")] (by decide) rfl (by simp [List.lookup])

/-- Claim C1 counterexample: on a 401 response the dispatch routine raises
`AuthenticationError(error_detail)` — the call site passes only the
extracted detail, so the raised error does not carry the response's
status code, contradicting the claim that each of the four mapped error
kinds carries both status and detail. -/
theorem c1_counterexample :
    dispatch (.response ⟨401,
        .ok (.obj [("detail", .str "Invalid API Key")]), "ignored"⟩) =
      .error (.authenticationError (.str "Invalid API Key")) ∧
    (TrendsAGIError.authenticationError
        (.str "Invalid API Key")).statusCode? = none :=
  ⟨rfl, rfl⟩

/-- Claim C1 (amended): for every non-2xx response whose detail extraction
succeeds, status 401 raises `AuthenticationError` carrying the detail
only (no status field); statuses 404, 409 and 429 raise the
corresponding error kind carrying both the status code and the detail;
and every other status raises the generic `APIError` carrying both its
status code and the detail. -/
theorem c1_status_classification (r : Response) (d : Json)
    (hs : ¬ (200 ≤ r.status ∧ r.status < 300))
    (hd : errorDetail? r = some d) :
    (r.status = 401 →
      dispatch (.response r) = .error (.authenticationError d)) ∧
    (r.status = 404 →
      dispatch (.response r) = .error (.notFoundError 404 d)) ∧
    (r.status = 409 →
      dispatch (.response r) = .error (.conflictError 409 d)) ∧
    (r.status = 429 →
      dispatch (.response r) = .error (.rateLimitError 429 d)) ∧
    (r.status ≠ 401 → r.status ≠ 404 → r.status ≠ 409 → r.status ≠ 429 →
      dispatch (.response r) = .error (.apiError r.status d)) := by
  have hbase : dispatch (.response r) = .error (classifyStatus r.status d) := by
    simp [dispatch, if_neg hs, hd]
  refine ⟨?_, ?_, ?_, ?_, ?_⟩
  · intro h
    rw [hbase]
    simp [classifyStatus, h]
  · intro h
    rw [hbase]
    simp [classifyStatus, h]
  · intro h
    rw [hbase]
    simp [classifyStatus, h]
  · intro h
    rw [hbase]
    simp [classifyStatus, h]
  · intro h1 h2 h3 h4
    rw [hbase]
    simp [classifyStatus, h1, h2, h3, h4]

/-- Witness for C1 (amended): concrete 404 and 500 responses with a
`detail` field, classified to `NotFoundError` and `APIError`. -/
theorem c1_status_classification_witness :
    dispatch (.response ⟨404, .ok (.obj [("detail", .str "missing")]),
        "t404"⟩) = .error (.notFoundError 404 (.str "missing")) ∧
    dispatch (.response ⟨500, .ok (.obj [("detail", .str "boom")]),
        "t500"⟩) = .error (.apiError 500 (.str "boom")) :=
  ⟨(c1_status_classification
      ⟨404, .ok (.obj [("detail", .str "missing")]), "t404"⟩
      (.str "missing") (by decide) rfl).2.1 rfl,
   (c1_status_classification
      ⟨500, .ok (.obj [("detail", .str "boom")]), "t500"⟩
      (.str "boom") (by decide) rfl).2.2.2.2
      (by decide) (by decide) (by decide) (by decide)⟩

/-- True when the dispatch outcome is a raised taxonomy error. -/
def DispatchOutcome.raisesTaxonomy : DispatchOutcome → Bool
  | .error _ => true
  | _ => false

/-- True when the dispatch outcome is a normal return. -/
def DispatchOutcome.returnsValue : DispatchOutcome → Bool
  | .ok _ => true
  | _ => false

/-- Claim C2 counterexample: a 500 response whose body parses to the JSON
array `[]` makes `response.json().get('detail', ...)` raise an
`AttributeError` (a list has no `.get`), which neither `except` handler
in `_request` catches — the failed call raises an exception outside the
declared taxonomy, contradicting the claim that every failed call raises
one of the taxonomy kinds. -/
theorem c2_counterexample :
    dispatch (.response ⟨500, .ok (.arr []), "[]"⟩) =
      .pyError "AttributeError: object has no attribute get" ∧
    (dispatch (.response ⟨500, .ok (.arr []), "[]"⟩)).raisesTaxonomy
      = false ∧
    (dispatch (.response ⟨500, .ok (.arr []), "[]"⟩)).returnsValue
      = false :=
  ⟨rfl, rfl, rfl⟩

/-- Claim C2 (amended): every invocation of dispatch has exactly one outcome —
a normal return, a raised taxonomy error, or (only in one corner) a
raised exception outside the taxonomy; a return and a raise never occur
together; and the non-taxonomy escape happens precisely when a non-2xx
response body parses to a JSON value that is not an object, so that
every other failed call raises exactly one taxonomy kind. -/
theorem c2_outcome_exclusive :
    (∀ t : TransportOutcome,
      (∃ v, dispatch t = .ok v) ∨ (∃ e, dispatch t = .error e) ∨
        (∃ m, dispatch t = .pyError m)) ∧
    (∀ (t : TransportOutcome) (v : Option Json) (e : TrendsAGIError),
      dispatch t = .ok v → dispatch t = .error e → False) ∧
    (∀ (t : TransportOutcome) (m : String), dispatch t = .pyError m →
      ∃ (r : Response) (j : Json), t = .response r ∧
        ¬ (200 ≤ r.status ∧ r.status < 300) ∧
        r.body = .ok j ∧ j.isObj = false) := by
  refine ⟨?_, ?_, ?_⟩
  · intro t
    cases h : dispatch t with
    | ok v => exact .inl ⟨v, rfl⟩
    | error e => exact .inr (.inl ⟨e, rfl⟩)
    | pyError m => exact .inr (.inr ⟨m, rfl⟩)
  · intro t v e h1 h2
    rw [h1] at h2
    cases h2
  · intro t m h
    cases t with
    | failure c => simp [dispatch] at h
    | response r =>
      by_cases h2 : 200 ≤ r.status ∧ r.status < 300
      · exfalso
        by_cases h3 : r.status = 204
        · simp [dispatch, h2, h3] at h
        · simp only [dispatch, if_pos h2, if_neg h3] at h
          cases hb : r.body <;> simp [hb] at h
      · refine ⟨r, ?_⟩
        simp only [dispatch, if_neg h2] at h
        cases hd : errorDetail? r with
        | some d => simp [hd] at h
        | none =>
          unfold errorDetail? at hd
          cases hb : r.body with
          | error m2 => rw [hb] at hd; cases hd
          | ok j =>
            refine ⟨j, rfl, h2, rfl, ?_⟩
            rw [hb] at hd
            cases j <;> first | rfl | (exfalso; cases hd)

/-- Witness for C2 (amended): a 400 response whose body parses to the
JSON string `"oops"` is precisely the non-object corner, and the escape
is located there by the theorem. -/
theorem c2_outcome_exclusive_witness :
    ∃ (r : Response) (j : Json),
      TransportOutcome.response ⟨400, .ok (.str "oops"), "x"⟩ =
        .response r ∧
      ¬ (200 ≤ r.status ∧ r.status < 300) ∧
      r.body = .ok j ∧ j.isObj = false :=
  c2_outcome_exclusive.2.2 (.response ⟨400, .ok (.str "oops"), "x"⟩)
    "AttributeError: object has no attribute get" rfl

/-- Claim C3 counterexample: a 200 response whose body is not valid JSON makes
`response.json()` raise `requests.exceptions.JSONDecodeError`; that
class descends from `requests.exceptions.RequestException`, so the
dispatch routine's own handler catches it and raises the
network/transport error kind — even though a response (with its status)
was obtained and no transport failure occurred, contradicting both the
claimed `only if transport failed` direction and the claimed distinct
parse-error outcome. -/
theorem c3_counterexample :
    dispatch (.response ⟨200,
        .error "Expecting value: line 1 column 1 (char 0)", "<html>"⟩) =
      .error (.transportError (wrapNetworkError
        "Expecting value: line 1 column 1 (char 0)")) :=
  rfl

/-- Claim C3 (amended): dispatch raises the network/transport error kind,
wrapping the underlying cause message, exactly when the transport layer
fails before a response is obtained or a response with status in
[200, 300) other than 204 has a body that is not valid JSON: the 2xx
parse failure is not silently returned as raw text, but it surfaces as
the transport-error kind (the decode error is a `RequestException` and
is re-wrapped by the same handler), not as a distinct parse-error
kind. -/
theorem c3_transport_error_iff (t : TransportOutcome) (m : String) :
    dispatch t = .error (.transportError m) ↔
      ((∃ c, t = .failure c ∧ m = wrapNetworkError c) ∨
       (∃ (r : Response) (e : String), t = .response r ∧
         200 ≤ r.status ∧ r.status < 300 ∧ r.status ≠ 204 ∧
         r.body = .error e ∧ m = wrapNetworkError e)) := by
  constructor
  · intro h
    cases t with
    | failure c =>
      refine .inl ⟨c, rfl, ?_⟩
      simp only [dispatch] at h
      cases h
      rfl
    | response r =>
      refine .inr ?_
      by_cases h2 : 200 ≤ r.status ∧ r.status < 300
      · by_cases h3 : r.status = 204
        · exfalso; simp [dispatch, h2, h3] at h
        · simp only [dispatch, if_pos h2, if_neg h3] at h
          cases hb : r.body with
          | ok j => exfalso; rw [hb] at h; cases h
          | error e =>
            rw [hb] at h
            cases h
            exact ⟨r, e, rfl, h2.1, h2.2, h3, hb, rfl⟩
      · exfalso
        simp only [dispatch, if_neg h2] at h
        cases hd : errorDetail? r with
        | some d =>
          rw [hd] at h
          injection h with h'
          exact classifyStatus_ne_transportError r.status d m h'
        | none => rw [hd] at h; cases h
  · intro h
    rcases h with ⟨c, rfl, rfl⟩ | ⟨r, e, rfl, h1, h2, h3, hb, rfl⟩
    · rfl
    · simp [dispatch, h1, h2, h3, hb]

/-- Witness for C3 (amended): a transport failure on one side, and a 200
response with unparseable body on the other, both produce the wrapped
transport error. -/
theorem c3_transport_error_iff_witness :
    dispatch (.failure "connection reset") =
      .error (.transportError (wrapNetworkError "connection reset")) ∧
    dispatch (.response ⟨200, .error "Expecting value", "nope"⟩) =
      .error (.transportError (wrapNetworkError "Expecting value")) :=
  ⟨(c3_transport_error_iff (.failure "connection reset")
      (wrapNetworkError "connection reset")).2
      (.inl ⟨"connection reset", rfl, rfl⟩),
   (c3_transport_error_iff
      (.response ⟨200, .error "Expecting value", "nope"⟩)
      (wrapNetworkError "Expecting value")).2
      (.inr ⟨⟨200, .error "Expecting value", "nope"⟩, "Expecting value",
        rfl, by decide, by decide, by decide, rfl, rfl⟩)⟩

/-- Claim C4 counterexample: `mark_notifications_read` builds
`{"ids": ids if ids is not None else []}` — with the `ids` argument
unset it still transmits the `ids` entry (as the empty list), so the
assembled mapping does not omit every entry whose argument is unset. -/
theorem c4_counterexample :
    (markNotificationsReadPayload none).lookup "ids" = some (.arr []) :=
  rfl

/-- Claim C4 (amended): every public operation that assembles its query or
body mapping through the not-`None` comprehension omits each entry whose
argument is unset — in particular `get_trends` with `search` unset sends
no `search` key — and no assembled mapping ever carries an explicit
`null` value; the one exception to omission is `mark_notifications_read`,
which always sends its `ids` key, substituting the empty list (never
`null`) for an unset argument. -/
theorem c4_omit_unset_entries :
    (∀ sb ord l o p,
      (getTrendsParams none sb ord l o p none).lookup "search" = none ∧
      (getTrendsParams none sb ord l o p none).lookup "category" = none) ∧
    (∀ s sb ord l o p c,
      hasNullValue (getTrendsParams s sb ord l o p c) = false) ∧
    (∀ p,
      (getTrendAnalyticsParams p none none).lookup "start_date" = none ∧
      (getTrendAnalyticsParams p none none).lookup "end_date" = none) ∧
    (∀ p sd ed, hasNullValue (getTrendAnalyticsParams p sd ed) = false) ∧
    (∀ l o sb ord,
      (searchInsightsParams none none none none none none l o sb
        ord).lookup "keyThemeContains" = none ∧
      (searchInsightsParams none none none none none none l o sb
        ord).lookup "trendNameContains" = none) ∧
    (∀ kt ak ac sc ot tn l o sb ord,
      hasNullValue (searchInsightsParams kt ak ac sc ot tn l o sb ord)
        = false) ∧
    (∀ l o st,
      (getRecommendationsParams l o none none none st).lookup "type"
        = none) ∧
    (∀ l o rt sq pr st,
      hasNullValue (getRecommendationsParams l o rt sq pr st) = false) ∧
    (∀ a,
      (performRecommendationActionPayload a none).lookup "feedback"
        = none) ∧
    (∀ a f,
      hasNullValue (performRecommendationActionPayload a f) = false) ∧
    (∀ h, (createTrackedXUserPayload h none none none).lookup "name"
        = none) ∧
    (∀ h n d no,
      hasNullValue (createTrackedXUserPayload h n d no) = false) ∧
    (∀ sb, (getTrackedXUsersParams none none sb).lookup "q" = none) ∧
    (∀ q mf sb, hasNullValue (getTrackedXUsersParams q mf sb) = false) ∧
    (∀ l o st tr,
      (getCrisisEventsParams l o st none none tr none none).lookup
        "keyword" = none) ∧
    (∀ l o st kw sv tr sd ed,
      hasNullValue (getCrisisEventsParams l o st kw sv tr sd ed)
        = false) ∧
    (∀ k act,
      (createTopicInterestPayload k act none none).lookup
        "volume_threshold_value" = none) ∧
    (∀ k act v pg,
      hasNullValue (createTopicInterestPayload k act v pg) = false) ∧
    (∀ dest cfg sch ia,
      (saveExportSettingsPayload none dest cfg sch none ia).lookup "id"
        = none ∧
      (saveExportSettingsPayload none dest cfg sch none ia).lookup
        "schedule_time" = none) ∧
    (∀ cid dest cfg sch st ia,
      hasNullValue (saveExportSettingsPayload cid dest cfg sch st ia)
        = false) ∧
    (∀ ids, hasNullValue (markNotificationsReadPayload ids) = false) :=
  ⟨fun _ _ _ _ _ => ⟨rfl, rfl⟩,
   fun _ _ _ _ _ _ _ => hasNullValue_filterNotNone _,
   fun _ => ⟨rfl, rfl⟩,
   fun _ _ _ => hasNullValue_filterNotNone _,
   fun _ _ _ _ => ⟨rfl, rfl⟩,
   fun _ _ _ _ _ _ _ _ _ _ => hasNullValue_filterNotNone _,
   fun _ _ _ => rfl,
   fun _ _ _ _ _ _ => hasNullValue_filterNotNone _,
   fun a => by cases a <;> rfl,
   fun _ _ => hasNullValue_filterNotNone _,
   fun _ => rfl,
   fun _ _ _ _ => hasNullValue_filterNotNone _,
   fun _ => rfl,
   fun _ _ _ => hasNullValue_filterNotNone _,
   fun _ _ _ _ => rfl,
   fun _ _ _ _ _ _ _ _ => hasNullValue_filterNotNone _,
   fun _ _ => rfl,
   fun _ _ _ _ => hasNullValue_filterNotNone _,
   fun _ cfg _ _ => by cases cfg <;> exact ⟨rfl, rfl⟩,
   fun _ _ _ _ _ _ => hasNullValue_filterNotNone _,
   fun _ => rfl⟩

/-- Claim C7 counterexample: with exactly one of the two arguments set —
`action` set to the empty string, `feedback` unset — the operation does
not proceed to dispatch: Python `not action` is true for the empty
string, so the `Either 'action' or 'feedback' must be provided` check
fires, a local validation error, for every transport outcome. -/
theorem c7_counterexample :
    perform_recommendation_action (some "") none
        (.response ⟨200, .ok (.obj []), "{}"⟩) =
      .localError "Either 'action' or 'feedback' must be provided." :=
  rfl

/-- Claim C7 (amended): in `perform_recommendation_action` an argument counts
as set only when it is truthy — supplied and non-empty (the checks use
Python truthiness, under which `None` and `""` are both falsy).  With
both arguments truthy, and likewise with neither truthy, the operation
raises the corresponding local validation error uniformly in the
transport outcome, hence before any network call; with exactly one
truthy argument it proceeds to dispatch the request. -/
theorem c7_mutual_exclusion_validation (action feedback : Option String) :
    (truthyStr action = true → truthyStr feedback = true →
      ∀ t, perform_recommendation_action action feedback t =
        .localError
          "Only one of 'action' or 'feedback' can be provided at a time.") ∧
    (truthyStr action = false → truthyStr feedback = false →
      ∀ t, perform_recommendation_action action feedback t =
        .localError "Either 'action' or 'feedback' must be provided.") ∧
    (truthyStr action ≠ truthyStr feedback →
      ∀ t, perform_recommendation_action action feedback t =
        .dispatched (dispatch t)) := by
  refine ⟨?_, ?_, ?_⟩
  · intro ha hf t
    simp [perform_recommendation_action, ha, hf]
  · intro ha hf t
    simp [perform_recommendation_action, ha, hf]
  · intro hne t
    cases ha : truthyStr action <;> cases hf : truthyStr feedback
    · exact absurd (ha.trans hf.symm) hne
    · simp [perform_recommendation_action, ha, hf]
    · simp [perform_recommendation_action, ha, hf]
    · exact absurd (ha.trans hf.symm) hne

/-- Witness for C7 (amended): both checks fire at concrete inputs, and a
single truthy argument dispatches. -/
theorem c7_mutual_exclusion_validation_witness :
    perform_recommendation_action (some "dismiss") (some "useful")
        (.failure "down") =
      .localError
        "Only one of 'action' or 'feedback' can be provided at a time." ∧
    perform_recommendation_action none none (.failure "down") =
      .localError "Either 'action' or 'feedback' must be provided." ∧
    perform_recommendation_action (some "dismiss") none (.failure "down") =
      .dispatched (dispatch (.failure "down")) :=
  ⟨(c7_mutual_exclusion_validation (some "dismiss") (some "useful")).1
      rfl rfl (.failure "down"),
   (c7_mutual_exclusion_validation none none).2.1 rfl rfl (.failure "down"),
   (c7_mutual_exclusion_validation (some "dismiss") none).2.2
      (by decide) (.failure "down")⟩

/-- Claim C8: constructing a client with the empty credential raises the
authentication error; with a non-empty credential construction succeeds,
normalizing the base URL and installing the fixed headers.  `clientInit`
consumes no `TransportOutcome`: the constructor cannot interact with the
network in the embedding, matching the zero-network-calls part of the
claim. -/
theorem c8_constructor_credential (base_url : String) :
    clientInit "" base_url =
      .error (.authenticationError (.str "API key is required.")) ∧
    (∀ k : String, k ≠ "" →
      clientInit k base_url =
        .ok { base_url := rstripSlash base_url
              headers := [("X-API-Key", k),
                          ("Content-Type", "application/json"),
                          ("Accept", "application/json")] }) := by
  constructor
  · rfl
  · intro k hk
    simp [clientInit, hk]

/-- Witness for C8: the empty key fails, a concrete key succeeds with
its headers installed. -/
theorem c8_constructor_credential_witness :
    clientInit "" "https://api.trendsagi.com" =
      .error (.authenticationError (.str "API key is required.")) ∧
    clientInit "sk-123" "https://api.trendsagi.com" =
      .ok { base_url := "https://api.trendsagi.com"
            headers := [("X-API-Key", "sk-123"),
                        ("Content-Type", "application/json"),
                        ("Accept", "application/json")] } :=
  ⟨(c8_constructor_credential "https://api.trendsagi.com").1,
   (c8_constructor_credential "https://api.trendsagi.com").2 "sk-123"
     (by decide)⟩

/-- Claim C9: `get_ai_insights` always transmits `force_refresh` — its query
dict is built without the not-`None` filter, so the key is present for
both boolean values, in particular the default `False` — while the other
boolean field of the operation surface, `is_active` of
`save_export_settings`, goes through the omit-if-`None` rule: being a
boolean it is never `None`, so it passes the filter for both values,
while genuinely optional fields of the same payload (`id`,
`schedule_time`) are omitted when unset. -/
theorem c9_force_refresh_always_sent :
    (∀ b, (getAiInsightsParams b).lookup "force_refresh"
      = some (.bool b)) ∧
    (getAiInsightsParams false).lookup "force_refresh"
      = some (.bool false) ∧
    (∀ cid dest cfg sch st ia,
      ("is_active", Json.bool ia) ∈
        saveExportSettingsPayload cid dest cfg sch st ia) ∧
    (∀ dest cfg sch ia,
      (saveExportSettingsPayload none dest cfg sch none ia).lookup "id"
        = none) := by
  refine ⟨fun b => rfl, rfl, ?_, ?_⟩
  · intro cid dest cfg sch st ia
    simp [saveExportSettingsPayload, filterNotNone, List.mem_filter,
      Json.isNull]
  · intro dest cfg sch ia
    cases cfg <;> rfl

end TrendsAGI
